import Mathlib

/-!
Verification development for a FastAPI chat service (auth routes, chat
routes, generation client, settings).  The Python source is embedded
shallowly: each route handler becomes a Lean function on an explicit
database state; the external generation backend, the password verifier and
the token signer appear as oracle parameters.  Error responses are
`HTTPError` records carrying the status code and detail string exactly as
raised by the source.
-/

namespace Cha

/-- An HTTP error response: `HTTPException(status_code=…, detail=…)`. -/
structure HTTPError where
  status_code : Nat
  detail : String
  deriving DecidableEq, Repr

/-- `app.models.models.User` row (fields as used by the routes):
id, username, email, hashed_password, is_active. -/
structure User where
  id : Nat
  username : String
  email : String
  hashed_password : String
  is_active : Bool
  deriving DecidableEq, Repr

/-- `app.models.models.Conversation` row: id, owning user id, title,
created / updated timestamps (modelled as naturals). -/
structure Conversation where
  id : Nat
  user_id : Nat
  title : String
  created_at : Nat
  updated_at : Nat
  deriving DecidableEq, Repr

/-- `app.models.models.Message` row: id, parent conversation id, role,
content, created timestamp. -/
structure Message where
  id : Nat
  conversation_id : Nat
  role : String
  content : String
  created_at : Nat
  deriving DecidableEq, Repr

/-- Database state: the three tables (rows kept in insertion order, as a
SQL engine does for untied `ORDER BY` columns) plus autoincrement
counters for the ids the engine assigns. -/
structure DB where
  users : List User
  conversations : List Conversation
  messages : List Message
  nextConvId : Nat
  nextMsgId : Nat
  deriving DecidableEq, Repr

/-- Ordering relation used by `ORDER BY Message.created_at`. -/
def msgLe (a b : Message) : Prop := a.created_at ≤ b.created_at

instance : DecidableRel msgLe := fun a b => Nat.decLe a.created_at b.created_at

/-- `ORDER BY created_at`: a stable sort on the creation timestamp; rows
with equal timestamps keep insertion order (SQL returns them in storage
order, which for this app is insertion order). -/
def orderByCreatedAt (ms : List Message) : List Message :=
  ms.insertionSort msgLe

/-- `db.query(Conversation).filter(id == cid, user_id == uid).first()`. -/
def findConversation (db : DB) (cid uid : Nat) : Option Conversation :=
  (db.conversations.filter (fun c => c.id == cid && c.user_id == uid)).head?

/-- The 404 raised by the chat routes for a missing or foreign
conversation: `HTTPException(404, "Conversation not found")`. -/
def conversationNotFound : HTTPError :=
  ⟨404, "Conversation not found"⟩

/-- The ordered message history of one conversation:
`db.query(Message).filter(conversation_id == cid).order_by(created_at)`. -/
def conversationHistory (db : DB) (cid : Nat) : List Message :=
  orderByCreatedAt (db.messages.filter (fun m => m.conversation_id == cid))

/-! ## Generation client (`gen_ai_service.py`) -/

/-- Python `str.capitalize()`: first character upper-cased, the rest
lower-cased (ASCII behaviour, which covers the roles used here). -/
def pyCapitalize (s : String) : String :=
  match s.data with
  | [] => ""
  | c :: cs => String.mk (c.toUpper :: cs.map Char.toLower)

/-- One rendered turn of `_format_messages_for_gemini`:
`f"{role.capitalize()}: {content}"`. -/
def renderTurn (m : String × String) : String :=
  pyCapitalize m.1 ++ ": " ++ m.2

/-- Python `sep.join(items)`: empty string on an empty list, the single
item alone, otherwise the items with `sep` between consecutive ones. -/
def pyJoin (sep : String) : List String → String
  | [] => ""
  | [s] => s
  | s :: s' :: rest => s ++ sep ++ pyJoin sep (s' :: rest)

/-- `GenAIService._format_messages_for_gemini`: render each turn, join
with newlines, append the trailing `"\nAssistant:"` cue. -/
def format_messages_for_gemini (messages : List (String × String)) : String :=
  pyJoin "\n" (messages.map renderTurn) ++ "\nAssistant:"

/-- The external Gemini backend as an oracle: prompt, temperature
(a rational, 0.7 by default), max_output_tokens; returns generated text
or a failure reason. -/
def Backend : Type := String → ℚ → Nat → Except String String

/-- Python `max_tokens or 1024`: `None` and `0` both fall back to 1024. -/
def resolveMaxTokens (max_tokens : Option Nat) : Nat :=
  match max_tokens with
  | none => 1024
  | some n => if n == 0 then 1024 else n

/-- `GenAIService.generate_response`: format the history into a prompt,
call the backend with the given temperature and resolved token cap,
return its text; any backend failure is re-raised as
`Exception(f"Error generating response: {cause}")`. -/
def generate_response (backend : Backend) (messages : List (String × String))
    (temperature : ℚ) (max_tokens : Option Nat) : Except String String :=
  match backend (format_messages_for_gemini messages) temperature
      (resolveMaxTokens max_tokens) with
  | .ok t => .ok t
  | .error e => .error ("Error generating response: " ++ e)

/-! ## Chat routes (`chat_routes.py`) -/

/-- `ChatRequest` body schema: `conversation_id: int`, `message: str`. -/
structure ChatRequest where
  conversation_id : Nat
  message : String
  deriving DecidableEq, Repr

/-- Pydantic validation of the `ChatRequest` body: both fields must be
present and well-typed; any string (the empty string included) is a valid
`message`.  A missing or ill-typed field yields a 422. -/
def validate_chat_request (conversation_id : Option Nat) (message : Option String) :
    Except HTTPError ChatRequest :=
  match conversation_id, message with
  | some c, some m => .ok ⟨c, m⟩
  | _, _ => .error ⟨422, "Unprocessable Entity"⟩

/-- `create_conversation` route: look the user up by id (the source
checks only existence, not `is_active`), 404 if absent, otherwise insert
a conversation row with both timestamps set to the current time
(column defaults) and return it. -/
def create_conversation (db : DB) (title : String) (user_id : Nat) (now : Nat) :
    DB × Except HTTPError Conversation :=
  match (db.users.filter (fun u => u.id == user_id)).head? with
  | none => (db, .error ⟨404, "User not found"⟩)
  | some _ =>
    ({ db with
        conversations := db.conversations ++ [⟨db.nextConvId, user_id, title, now, now⟩]
        nextConvId := db.nextConvId + 1 },
      .ok ⟨db.nextConvId, user_id, title, now, now⟩)

/-- `get_conversation` route: fetch by (id, owner), 404 on miss,
otherwise return the row together with its ordered messages. -/
def get_conversation (db : DB) (conversation_id user_id : Nat) :
    Except HTTPError (Conversation × List Message) :=
  match findConversation db conversation_id user_id with
  | none => .error conversationNotFound
  | some conv => .ok (conv, conversationHistory db conversation_id)

/-- The `conversation.updated_at = datetime.utcnow(); db.commit()` step of
`send_message`: set `updated_at` on the (id, owner) row, leave every other
row and every other field unchanged. -/
def touchConv (cid uid t : Nat) (cs : List Conversation) : List Conversation :=
  cs.map (fun c =>
    if c.id == cid && c.user_id == uid then { c with updated_at := t } else c)

/-- `send_message` route (`handle_turn`).  Steps, as in the source:
ownership check (404 on miss); insert and commit the user message (it
receives id `db.nextMsgId`); read the ordered history of the path
conversation, the new row included; call
`gen_ai_service.generate_response` with its defaults (temperature 0.7,
`max_tokens=None`); on failure raise 500 wrapping the cause — the
committed user message stays; on success insert the assistant message
(id `db.nextMsgId + 1`), bump the conversation's `updated_at`, and
return the text with the assistant message id.  The pair returned is
(database after all commits, route result). -/
def send_message (db : DB) (conversation_id : Nat) (chat_request : ChatRequest)
    (user_id : Nat) (backend : Backend) (now : Nat) :
    DB × Except HTTPError (String × Nat) :=
  match findConversation db conversation_id user_id with
  | none => (db, .error conversationNotFound)
  | some _ =>
    match generate_response backend
        ((conversationHistory
            { db with
                messages := db.messages ++
                  [⟨db.nextMsgId, conversation_id, "user", chat_request.message, now⟩]
                nextMsgId := db.nextMsgId + 1 } conversation_id).map
          (fun m => (m.role, m.content))) (7 / 10) none with
    | .error e =>
      ({ db with
          messages := db.messages ++
            [⟨db.nextMsgId, conversation_id, "user", chat_request.message, now⟩]
          nextMsgId := db.nextMsgId + 1 },
        .error ⟨500, "Error generating response: " ++ e⟩)
    | .ok ai_response =>
      ({ db with
          messages := db.messages ++
            [⟨db.nextMsgId, conversation_id, "user", chat_request.message, now⟩,
             ⟨db.nextMsgId + 1, conversation_id, "assistant", ai_response, now⟩]
          nextMsgId := db.nextMsgId + 2
          conversations := touchConv conversation_id user_id now db.conversations },
        .ok (ai_response, db.nextMsgId + 1))

/-- `delete_conversation` route: fetch by (id, owner), 404 on miss,
otherwise delete the fetched row (`id` is the primary key, so removing
every (id, owner) match removes exactly that row); the ORM cascade
removes every message of that conversation in the same commit. -/
def delete_conversation (db : DB) (conversation_id user_id : Nat) :
    DB × Except HTTPError String :=
  match findConversation db conversation_id user_id with
  | none => (db, .error conversationNotFound)
  | some _ =>
    ({ db with
        conversations :=
          db.conversations.filter
            (fun c => !(c.id == conversation_id && c.user_id == user_id))
        messages := db.messages.filter (fun m => !(m.conversation_id == conversation_id)) },
      .ok "Conversation deleted successfully")

/-! ## Auth routes (`auth_routes.py`) -/

/-- `login` route: find the user by email; 401 "Invalid email or
password" when absent or the password does not verify; 403 "User account
is inactive" when the account is inactive; otherwise issue a token for
the user id.  `verify_password` and `create_access_token` live in the
auth service and are passed as oracles. -/
def login (db : DB) (email password : String)
    (verify_password : String → String → Bool)
    (create_access_token : Nat → String) :
    Except HTTPError (String × Nat) :=
  match (db.users.filter (fun u => u.email == email)).head? with
  | none => .error ⟨401, "Invalid email or password"⟩
  | some user =>
    if !(verify_password password user.hashed_password) then
      .error ⟨401, "Invalid email or password"⟩
    else if !user.is_active then
      .error ⟨403, "User account is inactive"⟩
    else
      .ok (create_access_token user.id, user.id)

/-! ## Credential service tokens -/

/-- `settings.ACCESS_TOKEN_EXPIRE_MINUTES = 60 * 24` (24 hours). -/
def ACCESS_TOKEN_EXPIRE_MINUTES : Nat := 60 * 24

/-- The token TTL in seconds derived from the settings constant. -/
def TOKEN_TTL_SECONDS : Nat := ACCESS_TOKEN_EXPIRE_MINUTES * 60

/-- A signed token: an optional (subject, expiry) payload — `none` stands
for a payload that does not decode — plus a signature value. -/
structure Token where
  payload : Option (Nat × Nat)
  sig : Nat
  deriving DecidableEq, Repr

/-- Credential-service failures. -/
inductive AuthError where
  | Invalid
  | Expired
  deriving DecidableEq, Repr

/-- A keyed MAC over the payload, as an oracle: secret → payload → tag. -/
def Mac : Type := Nat → Option (Nat × Nat) → Nat

/-- Modelled from the spec: `issue_token` of the auth service
(`app/services/auth_service.py`, not present in the sources) produces a
signed credential whose payload is the subject user id and the absolute
expiry `now + TTL`, with the TTL taken from
`settings.ACCESS_TOKEN_EXPIRE_MINUTES` (24 hours). -/
def issue_token (mac : Mac) (secret user_id now : Nat) : Token :=
  let payload := some (user_id, now + TOKEN_TTL_SECONDS)
  ⟨payload, mac secret payload⟩

/-- Modelled from the spec: `verify_token` of the auth service fails with
`AuthError.Invalid` when the payload is malformed or the signature does
not verify, with `AuthError.Expired` when the expiry has passed, and
otherwise returns the embedded user id.  It takes no database: the
subject is not re-checked for existence. -/
def verify_token (mac : Mac) (secret : Nat) (tok : Token) (now : Nat) :
    Except AuthError Nat :=
  match tok.payload with
  | none => .error .Invalid
  | some (sub, exp) =>
    if tok.sig ≠ mac secret (some (sub, exp)) then .error .Invalid
    else if exp < now then .error .Expired
    else .ok sub

/-! ## Multi-call driver and spec-side prompt -/

/-- A sequence of `send_message` calls against one conversation: each
turn is (user text, request time); the body's `conversation_id` field is
filled with the path id, as the shipped frontend does.  Returns the final
database together with the (assistant text, message id) results when
every call succeeds, `none` as soon as one fails. -/
def runTurns (db : DB) (cid uid : Nat) (backend : Backend) :
    List (String × Nat) → Option (DB × List (String × Nat))
  | [] => some (db, [])
  | (text, t) :: rest =>
    match send_message db cid ⟨cid, text⟩ uid backend t with
    | (db1, .ok out) =>
      match runTurns db1 cid uid backend rest with
      | some (dbN, outs) => some (dbN, out :: outs)
      | none => none
    | (_, .error _) => none

/-- The message rows a list of successful turns appends: for each
(user text, time) paired with its returned (assistant text, message id),
first the user row (its id one below the returned id), then the assistant
row carrying the returned id and text. -/
def turnMessages (cid : Nat) : List ((String × Nat) × (String × Nat)) → List Message
  | [] => []
  | ((text, t), (reply, mid)) :: rest =>
    ⟨mid - 1, cid, "user", text, t⟩ :: ⟨mid, cid, "assistant", reply, t⟩ ::
      turnMessages cid rest

/-- Joining strings "by newlines" as the spec words it, written as a left
fold: the first rendering, then a newline before each later one. -/
def specJoinLines : List String → String
  | [] => ""
  | s :: rest => rest.foldl (fun acc x => acc ++ "\n" ++ x) s

/-- The backend prompt as the spec describes it: each turn of the history
rendered as `<Role>: <content>`, the renderings joined by newlines,
followed by the trailing cue inviting the assistant's turn. -/
def specRenderedPrompt (history : List (String × String)) : String :=
  specJoinLines (history.map (fun p => pyCapitalize p.1 ++ ": " ++ p.2)) ++ "\nAssistant:"

/-! ## Sample database states (used by witnesses and counterexamples) -/

/-- A database holding one active user who owns one conversation with an
empty message history. -/
def sampleDB : DB :=
  { users := [⟨1, "ana", "ana@x.com", "pw123", true⟩]
    conversations := [⟨1, 1, "trip", 0, 0⟩]
    messages := []
    nextConvId := 2
    nextMsgId := 1 }

/-- A backend that always answers `"hello"`. -/
def okBackend : Backend := fun _ _ _ => .ok "hello"

/-- A backend that always fails with reason `"boom"`. -/
def failBackend : Backend := fun _ _ _ => .error "boom"

/-- The database `sampleDB` evolves into after two successful
`send_message` calls ("hi" at time 1, "more" at time 2) answered with
"hello" by `okBackend`. -/
def sampleDBAfterTwoTurns : DB :=
  { users := [⟨1, "ana", "ana@x.com", "pw123", true⟩]
    conversations := [⟨1, 1, "trip", 0, 2⟩]
    messages :=
      [⟨1, 1, "user", "hi", 1⟩, ⟨2, 1, "assistant", "hello", 1⟩,
       ⟨3, 1, "user", "more", 2⟩, ⟨4, 1, "assistant", "hello", 2⟩]
    nextConvId := 2
    nextMsgId := 5 }

/-- A database holding a single inactive user and nothing else. -/
def inactiveUserDB : DB :=
  { users := [⟨1, "bob", "bob@x.com", "pw", false⟩]
    conversations := []
    messages := []
    nextConvId := 1
    nextMsgId := 1 }

/-! ## Helper lemmas -/

theorem orderByCreatedAt_eq_of_sorted {ms : List Message} (h : ms.Sorted msgLe) :
    orderByCreatedAt ms = ms :=
  h.insertionSort_eq

theorem orderFilter_snoc (ms : List Message) (cid : Nat) (u : Message)
    (hsort : ms.Sorted msgLe) (hu : ∀ m ∈ ms, m.created_at ≤ u.created_at)
    (hcu : u.conversation_id = cid) :
    orderByCreatedAt ((ms ++ [u]).filter (fun m => m.conversation_id == cid)) =
      orderByCreatedAt (ms.filter (fun m => m.conversation_id == cid)) ++ [u] := by
  have hfil : (ms ++ [u]).filter (fun m => m.conversation_id == cid) =
      ms.filter (fun m => m.conversation_id == cid) ++ [u] := by
    rw [List.filter_append]
    simp [hcu]
  have h1 : (ms.filter (fun m => m.conversation_id == cid)).Sorted msgLe :=
    hsort.filter _
  have h2 : (ms.filter (fun m => m.conversation_id == cid) ++ [u]).Sorted msgLe := by
    refine List.pairwise_append.mpr ⟨h1, List.pairwise_singleton _ _, ?_⟩
    intro a ha b hb
    rw [List.mem_singleton] at hb
    subst hb
    exact hu a (List.mem_of_mem_filter ha)
  rw [hfil, orderByCreatedAt_eq_of_sorted h2, orderByCreatedAt_eq_of_sorted h1]

theorem orderFilter_snoc2 (ms : List Message) (cid : Nat) (u a : Message)
    (hsort : ms.Sorted msgLe) (hu : ∀ m ∈ ms, m.created_at ≤ u.created_at)
    (hua : u.created_at ≤ a.created_at)
    (hcu : u.conversation_id = cid) (hca : a.conversation_id = cid) :
    orderByCreatedAt ((ms ++ [u, a]).filter (fun m => m.conversation_id == cid)) =
      orderByCreatedAt (ms.filter (fun m => m.conversation_id == cid)) ++ [u, a] := by
  have hms : ms ++ [u, a] = (ms ++ [u]) ++ [a] := by simp
  have hsort1 : (ms ++ [u]).Sorted msgLe := by
    refine List.pairwise_append.mpr ⟨hsort, List.pairwise_singleton _ _, ?_⟩
    intro x hx b hb
    rw [List.mem_singleton] at hb
    subst hb
    exact hu x hx
  have hbound1 : ∀ m ∈ ms ++ [u], m.created_at ≤ a.created_at := by
    intro m hm
    rcases List.mem_append.mp hm with h | h
    · exact le_trans (hu m h) hua
    · rw [List.mem_singleton] at h
      subst h
      exact hua
  rw [hms, orderFilter_snoc (ms ++ [u]) cid a hsort1 hbound1 hca,
    orderFilter_snoc ms cid u hsort hu hcu, List.append_assoc]
  rfl

theorem turnMessages_length (cid : Nat) (l : List ((String × Nat) × (String × Nat))) :
    (turnMessages cid l).length = 2 * l.length := by
  induction l with
  | nil => rfl
  | cons p rest ih =>
    obtain ⟨⟨text, t⟩, reply, mid⟩ := p
    simp only [turnMessages, List.length_cons, ih]
    ring

theorem sorted_append_pair (ms : List Message) (u a : Message)
    (hsort : ms.Sorted msgLe)
    (hu : ∀ m ∈ ms, m.created_at ≤ u.created_at)
    (hua : u.created_at ≤ a.created_at) :
    (ms ++ [u, a]).Sorted msgLe := by
  refine List.pairwise_append.mpr ⟨hsort, ?_, ?_⟩
  · refine List.pairwise_cons.mpr ⟨?_, List.pairwise_singleton _ _⟩
    intro b hb
    rw [List.mem_singleton] at hb
    subst hb
    exact hua
  · intro x hx b hb
    rcases List.mem_cons.mp hb with h | h
    · subst h
      exact hu x hx
    · rw [List.mem_singleton] at h
      subst h
      exact le_trans (hu x hx) hua

theorem send_message_ok_inv {db : DB} {cid : Nat} {req : ChatRequest} {uid : Nat}
    {backend : Backend} {now : Nat} {db1 : DB} {out : String × Nat}
    (h : send_message db cid req uid backend now = (db1, .ok out)) :
    out.2 = db.nextMsgId + 1 ∧
    db1.messages = db.messages ++
      [⟨db.nextMsgId, cid, "user", req.message, now⟩,
       ⟨db.nextMsgId + 1, cid, "assistant", out.1, now⟩] ∧
    db1.conversations = touchConv cid uid now db.conversations ∧
    db1.users = db.users ∧ db1.nextMsgId = db.nextMsgId + 2 := by
  unfold send_message at h
  split at h
  · simp at h
  · split at h
    · simp at h
    · cases h
      exact ⟨rfl, rfl, rfl, rfl, rfl⟩

/-! ## Claim theorems -/

/-- Claim C1: when the user's message has been persisted and the
generation backend call then fails, `send_message` fails with a
`GenerationError` (a 500 wrapping the cause), the persisted user message
is not rolled back — the database keeps exactly the one new user row,
`nextMsgId` advanced past it, and the conversation table untouched — and
the conversation's history afterwards is the old history plus exactly
one user message and no assistant message. -/
theorem sendMessage_generation_failure_keeps_user_turn
    (db : DB) (cid uid : Nat) (req : ChatRequest) (backend : Backend)
    (now : Nat) (cause : String) (conv : Conversation)
    (hown : findConversation db cid uid = some conv)
    (hsort : db.messages.Sorted msgLe)
    (hbound : ∀ m ∈ db.messages, m.created_at ≤ now)
    (hfail : backend (format_messages_for_gemini
        ((conversationHistory
            { db with
                messages := db.messages ++ [⟨db.nextMsgId, cid, "user", req.message, now⟩]
                nextMsgId := db.nextMsgId + 1 } cid).map
          (fun m => (m.role, m.content)))) (7 / 10) 1024 = .error cause) :
    send_message db cid req uid backend now =
      ({ db with
          messages := db.messages ++ [⟨db.nextMsgId, cid, "user", req.message, now⟩]
          nextMsgId := db.nextMsgId + 1 },
        .error ⟨500, "Error generating response: " ++ ("Error generating response: " ++ cause)⟩) ∧
    conversationHistory
        { db with
            messages := db.messages ++ [⟨db.nextMsgId, cid, "user", req.message, now⟩]
            nextMsgId := db.nextMsgId + 1 } cid =
      conversationHistory db cid ++ [⟨db.nextMsgId, cid, "user", req.message, now⟩] := by
  have hg : generate_response backend
      ((conversationHistory
          { db with
              messages := db.messages ++ [⟨db.nextMsgId, cid, "user", req.message, now⟩]
              nextMsgId := db.nextMsgId + 1 } cid).map
        (fun m => (m.role, m.content))) (7 / 10) none =
      .error ("Error generating response: " ++ cause) := by
    unfold generate_response
    rw [show resolveMaxTokens none = 1024 from rfl, hfail]
  constructor
  · unfold send_message
    rw [hown, hg]
  · exact orderFilter_snoc db.messages cid _ hsort hbound rfl

/-- Witness for C1 at a concrete state: one owned conversation with an
empty history, a backend that fails with reason `"boom"`. -/
theorem sendMessage_generation_failure_keeps_user_turn_witness :
    findConversation sampleDB 1 1 = some ⟨1, 1, "trip", 0, 0⟩ ∧
    (send_message sampleDB 1 ⟨1, "hi"⟩ 1 failBackend 1 =
      ({ sampleDB with
          messages := sampleDB.messages ++ [⟨sampleDB.nextMsgId, 1, "user", "hi", 1⟩]
          nextMsgId := sampleDB.nextMsgId + 1 },
        .error ⟨500, "Error generating response: Error generating response: boom"⟩) ∧
    conversationHistory
        { sampleDB with
            messages := sampleDB.messages ++ [⟨sampleDB.nextMsgId, 1, "user", "hi", 1⟩]
            nextMsgId := sampleDB.nextMsgId + 1 } 1 =
      conversationHistory sampleDB 1 ++ [⟨sampleDB.nextMsgId, 1, "user", "hi", 1⟩]) :=
  ⟨rfl, sendMessage_generation_failure_keeps_user_turn sampleDB 1 1 ⟨1, "hi"⟩ failBackend 1
    "boom" ⟨1, 1, "trip", 0, 0⟩ rfl (by decide) (by simp [sampleDB]) rfl⟩

/-- Claim C2: a run of N successful `send_message` calls on one
conversation appends per call exactly one user message carrying the
caller's text followed by one assistant message carrying the generated
text; each call returns the assistant text together with the persisted
assistant message's id; after the run the ordered history is the old one
plus the interleaved pairs in call order (so exactly 2N messages when it
started empty), the conversation's `updated_at` has been set at each
call with every other conversation field and the user table unchanged. -/
theorem sendMessage_success_appends_pairs
    (db : DB) (cid uid : Nat) (backend : Backend) (turns : List (String × Nat))
    (db' : DB) (outs : List (String × Nat))
    (hsort : db.messages.Sorted msgLe)
    (hbound : ∀ m ∈ db.messages, ∀ p ∈ turns, m.created_at ≤ p.2)
    (hmono : turns.Pairwise (fun p q => p.2 ≤ q.2))
    (hrun : runTurns db cid uid backend turns = some (db', outs)) :
    outs.length = turns.length ∧
    db'.messages = db.messages ++ turnMessages cid (turns.zip outs) ∧
    conversationHistory db' cid =
      conversationHistory db cid ++ turnMessages cid (turns.zip outs) ∧
    (conversationHistory db' cid).length =
      (conversationHistory db cid).length + 2 * turns.length ∧
    db'.conversations =
      turns.foldl (fun cs p => touchConv cid uid p.2 cs) db.conversations ∧
    db'.users = db.users := by
  induction turns generalizing db outs with
  | nil =>
    unfold runTurns at hrun
    simp only [Option.some.injEq, Prod.mk.injEq] at hrun
    obtain ⟨h1, h2⟩ := hrun
    subst h1
    subst h2
    simp [turnMessages]
  | cons p rest ih =>
    obtain ⟨text, t⟩ := p
    unfold runTurns at hrun
    split at hrun
    case h_1 db1 out hsend =>
      split at hrun
      case h_1 q dbN outs0 hrest =>
        simp only [Option.some.injEq, Prod.mk.injEq] at hrun
        obtain ⟨hdb, houts⟩ := hrun
        subst hdb
        subst houts
        obtain ⟨reply, mid⟩ := out
        obtain ⟨hmid, hmsgs, hconvs, husers, hnext⟩ := send_message_ok_inv hsend
        simp only at hmid
        subst hmid
        have hu_bound : ∀ m ∈ db.messages,
            m.created_at ≤ (⟨db.nextMsgId, cid, "user", text, t⟩ : Message).created_at :=
          fun m hm => hbound m hm (text, t) (List.mem_cons_self _ _)
        have hsort1 : db1.messages.Sorted msgLe := by
          rw [hmsgs]
          exact sorted_append_pair db.messages _ _ hsort hu_bound (le_refl t)
        have hbound1 : ∀ m ∈ db1.messages, ∀ q ∈ rest, m.created_at ≤ q.2 := by
          intro m hm q hq
          rw [hmsgs] at hm
          rcases List.mem_append.mp hm with h | h
          · exact hbound m h q (List.mem_cons_of_mem _ hq)
          · have ht : t ≤ q.2 := (List.pairwise_cons.mp hmono).1 q hq
            rcases List.mem_cons.mp h with h' | h'
            · subst h'
              exact ht
            · rw [List.mem_singleton] at h'
              subst h'
              exact ht
        have hmono1 := (List.pairwise_cons.mp hmono).2
        obtain ⟨ih_len, ih_msgs, ih_hist, ih_histlen, ih_convs, ih_users⟩ :=
          ih db1 outs0 hsort1 hbound1 hmono1 hrest
        have hh1 : conversationHistory db1 cid = conversationHistory db cid ++
            [⟨db.nextMsgId, cid, "user", text, t⟩,
             ⟨db.nextMsgId + 1, cid, "assistant", reply, t⟩] := by
          unfold conversationHistory
          rw [hmsgs]
          exact orderFilter_snoc2 db.messages cid _ _ hsort hu_bound (le_refl t) rfl rfl
        have h3 : conversationHistory dbN cid = conversationHistory db cid ++
            turnMessages cid ((((text, t)) :: rest).zip ((reply, db.nextMsgId + 1) :: outs0)) := by
          rw [ih_hist, hh1, List.append_assoc]
          simp [turnMessages, List.zip]
        refine ⟨by simp [ih_len], ?_, h3, ?_, ?_, husers.symm ▸ ih_users⟩
        · rw [ih_msgs, hmsgs, List.append_assoc]
          simp [turnMessages, List.zip]
        · rw [h3, List.length_append, turnMessages_length, List.length_zip]
          simp [ih_len]
        · rw [ih_convs, hconvs]
          rfl
      case h_2 hrest =>
        simp at hrun
    case h_2 e hsend =>
      simp at hrun

/-- Witness for C2: two successful turns against `sampleDB`'s empty
conversation, answered "hello". -/
theorem sendMessage_success_appends_pairs_witness :
    List.Sorted msgLe sampleDB.messages ∧
    (∀ m ∈ sampleDB.messages, ∀ p ∈ [("hi", 1), ("more", 2)], m.created_at ≤ p.2) ∧
    List.Pairwise (fun p q : String × Nat => p.2 ≤ q.2) [("hi", 1), ("more", 2)] ∧
    runTurns sampleDB 1 1 okBackend [("hi", 1), ("more", 2)] =
      some (sampleDBAfterTwoTurns, [("hello", 2), ("hello", 4)]) ∧
    ([("hello", 2), ("hello", 4)] : List (String × Nat)).length =
      ([("hi", 1), ("more", 2)] : List (String × Nat)).length ∧
    sampleDBAfterTwoTurns.messages = sampleDB.messages ++
      turnMessages 1 ([("hi", 1), ("more", 2)].zip [("hello", 2), ("hello", 4)]) ∧
    conversationHistory sampleDBAfterTwoTurns 1 = conversationHistory sampleDB 1 ++
      turnMessages 1 ([("hi", 1), ("more", 2)].zip [("hello", 2), ("hello", 4)]) ∧
    (conversationHistory sampleDBAfterTwoTurns 1).length =
      (conversationHistory sampleDB 1).length + 2 * 2 ∧
    sampleDBAfterTwoTurns.conversations =
      [("hi", 1), ("more", 2)].foldl (fun cs p => touchConv 1 1 p.2 cs)
        sampleDB.conversations ∧
    sampleDBAfterTwoTurns.users = sampleDB.users := by
  have h := sendMessage_success_appends_pairs sampleDB 1 1 okBackend
    [("hi", 1), ("more", 2)] sampleDBAfterTwoTurns [("hello", 2), ("hello", 4)]
    (by decide) (by simp [sampleDB]) (by decide) rfl
  exact ⟨by decide, by simp [sampleDB], by decide, rfl, h.1, h.2.1, h.2.2.1, h.2.2.2.1,
    h.2.2.2.2.1, h.2.2.2.2.2⟩

/-- Claim C3: for users A ≠ B and a conversation id whose rows all belong
to A, user B's `get_conversation`, `send_message` and
`delete_conversation` each fail with the 404 "Conversation not found"
error and leave the database untouched — the very same error value the
three operations produce on a database where no conversation with that
id exists at all, so "not owned" and "nonexistent" are observably
identical. -/
theorem foreign_conversation_indistinguishable_from_missing
    (db db2 : DB) (cid A B : Nat) (req : ChatRequest) (backend : Backend) (now : Nat)
    (hA : ∀ c ∈ db.conversations, c.id = cid → c.user_id = A)
    (hAB : A ≠ B)
    (habsent : ∀ c ∈ db2.conversations, c.id ≠ cid) :
    get_conversation db cid B = .error conversationNotFound ∧
    send_message db cid req B backend now = (db, .error conversationNotFound) ∧
    delete_conversation db cid B = (db, .error conversationNotFound) ∧
    get_conversation db2 cid B = .error conversationNotFound ∧
    send_message db2 cid req B backend now = (db2, .error conversationNotFound) ∧
    delete_conversation db2 cid B = (db2, .error conversationNotFound) := by
  have hfind : findConversation db cid B = none := by
    unfold findConversation
    rw [List.filter_eq_nil_iff.mpr ?_]
    · rfl
    · intro c hc
      simp only [Bool.and_eq_true, beq_iff_eq, not_and]
      intro hid huid
      exact hAB ((hA c hc hid).symm.trans huid)
  have hfind2 : findConversation db2 cid B = none := by
    unfold findConversation
    rw [List.filter_eq_nil_iff.mpr ?_]
    · rfl
    · intro c hc
      simp only [Bool.and_eq_true, beq_iff_eq, not_and]
      intro hid _
      exact absurd hid (habsent c hc)
  refine ⟨?_, ?_, ?_, ?_, ?_, ?_⟩
  · unfold get_conversation
    rw [hfind]
  · unfold send_message
    rw [hfind]
  · unfold delete_conversation
    rw [hfind]
  · unfold get_conversation
    rw [hfind2]
  · unfold send_message
    rw [hfind2]
  · unfold delete_conversation
    rw [hfind2]

/-- Witness for C3: user 2 probing user 1's conversation in `sampleDB`,
and probing a database with no conversations at all. -/
theorem foreign_conversation_indistinguishable_from_missing_witness :
    (∀ c ∈ sampleDB.conversations, c.id = 1 → c.user_id = 1) ∧
    (1 : Nat) ≠ 2 ∧
    (∀ c ∈ inactiveUserDB.conversations, c.id ≠ 1) ∧
    (get_conversation sampleDB 1 2 = .error conversationNotFound ∧
    send_message sampleDB 1 ⟨1, "hi"⟩ 2 okBackend 1 = (sampleDB, .error conversationNotFound) ∧
    delete_conversation sampleDB 1 2 = (sampleDB, .error conversationNotFound) ∧
    get_conversation inactiveUserDB 1 2 = .error conversationNotFound ∧
    send_message inactiveUserDB 1 ⟨1, "hi"⟩ 2 okBackend 1 =
      (inactiveUserDB, .error conversationNotFound) ∧
    delete_conversation inactiveUserDB 1 2 = (inactiveUserDB, .error conversationNotFound)) :=
  ⟨by decide, by decide, by decide,
    foreign_conversation_indistinguishable_from_missing sampleDB inactiveUserDB 1 1 2
      ⟨1, "hi"⟩ okBackend 1 (by decide) (by decide) (by decide)⟩

theorem foldl_newline (l : List String) :
    ∀ a : String, l.foldl (fun acc x => acc ++ "\n" ++ x) a = pyJoin "\n" (a :: l) := by
  induction l with
  | nil => intro a; rfl
  | cons x xs ih =>
    intro a
    show xs.foldl (fun acc x => acc ++ "\n" ++ x) (a ++ "\n" ++ x) = _
    rw [ih (a ++ "\n" ++ x)]
    cases xs with
    | nil => rfl
    | cons y ys => simp [pyJoin, String.append_assoc]

theorem pyJoin_eq_specJoinLines (l : List String) : pyJoin "\n" l = specJoinLines l := by
  cases l with
  | nil => rfl
  | cons s rest => exact (foldl_newline rest s).symm

theorem format_eq_specPrompt (history : List (String × String)) :
    format_messages_for_gemini history = specRenderedPrompt history := by
  unfold format_messages_for_gemini specRenderedPrompt
  rw [pyJoin_eq_specJoinLines]
  rfl

/-- Claim C5: the generation client renders each (role, content) turn as
`<Role>: <content>`, joins the renderings with newlines and appends the
trailing cue inviting the assistant's turn (the code's prompt equals the
spec-worded rendering `specRenderedPrompt`); with the route's default
arguments it invokes the backend with an output cap of 1024 tokens and
the fixed default temperature 0.7, and on backend success it returns the
backend's text verbatim. -/
theorem generate_response_matches_spec
    (backend : Backend) (history : List (String × String)) (reply : String)
    (hok : backend (specRenderedPrompt history) (7 / 10) 1024 = .ok reply) :
    format_messages_for_gemini history = specRenderedPrompt history ∧
    resolveMaxTokens none = 1024 ∧
    generate_response backend history (7 / 10) none = .ok reply := by
  refine ⟨format_eq_specPrompt history, rfl, ?_⟩
  unfold generate_response
  rw [show resolveMaxTokens none = 1024 from rfl, format_eq_specPrompt history, hok]

/-- Witness for C5 on a one-turn history. -/
theorem generate_response_matches_spec_witness :
    okBackend (specRenderedPrompt [("user", "hi")]) (7 / 10) 1024 = .ok "hello" ∧
    (format_messages_for_gemini [("user", "hi")] = specRenderedPrompt [("user", "hi")] ∧
    resolveMaxTokens none = 1024 ∧
    generate_response okBackend [("user", "hi")] (7 / 10) none = .ok "hello") :=
  ⟨rfl, generate_response_matches_spec okBackend [("user", "hi")] "hello" rfl⟩

/-- Claim C4: `issue_token` signs a payload carrying the user id and an
absolute expiry of now + 24 hours (the TTL coming from
`settings.ACCESS_TOKEN_EXPIRE_MINUTES = 60 * 24`); `verify_token` fails
with `AuthError.Invalid` on a malformed payload or a signature that does
not verify, with `AuthError.Expired` once the expiry has passed, and
otherwise returns the embedded user id — taking no user store at all, so
the subject's existence is not re-checked. -/
theorem token_lifecycle
    (mac : Mac) (secret uid now sub exp sig t1 t2 tAny : Nat)
    (hsig : sig ≠ mac secret (some (sub, exp)))
    (hexpired : exp < t1)
    (hlive : t2 ≤ exp) :
    issue_token mac secret uid now =
      ⟨some (uid, now + TOKEN_TTL_SECONDS),
       mac secret (some (uid, now + TOKEN_TTL_SECONDS))⟩ ∧
    TOKEN_TTL_SECONDS = 24 * 60 * 60 ∧
    verify_token mac secret ⟨none, sig⟩ tAny = .error .Invalid ∧
    verify_token mac secret ⟨some (sub, exp), sig⟩ tAny = .error .Invalid ∧
    verify_token mac secret ⟨some (sub, exp), mac secret (some (sub, exp))⟩ t1 =
      .error .Expired ∧
    verify_token mac secret ⟨some (sub, exp), mac secret (some (sub, exp))⟩ t2 =
      .ok sub := by
  refine ⟨rfl, by decide, rfl, ?_, ?_, ?_⟩
  · simp [verify_token, hsig]
  · simp [verify_token, hexpired]
  · simp [verify_token, Nat.not_lt.mpr hlive]

/-- Witness for C4 with the MAC `fun s _ => s`, secret 0, a token for
user 7 expiring at 50. -/
theorem token_lifecycle_witness :
    (1 : Nat) ≠ (fun (s : Nat) (_ : Option (Nat × Nat)) => s) 0 (some (7, 50)) ∧
    (50 : Nat) < 51 ∧
    (50 : Nat) ≤ 50 ∧
    (issue_token (fun s _ => s) 0 7 100 =
      ⟨some (7, 100 + TOKEN_TTL_SECONDS), 0⟩ ∧
    TOKEN_TTL_SECONDS = 24 * 60 * 60 ∧
    verify_token (fun s _ => s) 0 ⟨none, 1⟩ 0 = .error .Invalid ∧
    verify_token (fun s _ => s) 0 ⟨some (7, 50), 1⟩ 0 = .error .Invalid ∧
    verify_token (fun s _ => s) 0 ⟨some (7, 50), 0⟩ 51 = .error .Expired ∧
    verify_token (fun s _ => s) 0 ⟨some (7, 50), 0⟩ 50 = .ok 7) :=
  ⟨by decide, by decide, by decide,
    token_lifecycle (fun s _ => s) 0 7 100 7 50 1 51 50 0
      (by decide) (by decide) (by decide)⟩

/-- Claim C6: deleting an owned conversation succeeds, removes the
conversation row and every one of its messages in the same commit (no
message of that conversation remains, no conversation with that id
remains), a subsequent owner `get_conversation` fails with the 404
"Conversation not found" error, and a database without orphan messages
still has none afterwards. -/
theorem delete_conversation_cascades
    (db : DB) (cid uid : Nat) (conv : Conversation)
    (hconv : conv ∈ db.conversations) (hid : conv.id = cid) (huid : conv.user_id = uid)
    (huniq : db.conversations.Pairwise (fun a b => a.id ≠ b.id))
    (horph : db.messages.all
      (fun m => db.conversations.any (fun c => c.id == m.conversation_id)) = true) :
    (delete_conversation db cid uid).2 = .ok "Conversation deleted successfully" ∧
    (delete_conversation db cid uid).1.messages.filter
      (fun m => m.conversation_id == cid) = [] ∧
    (delete_conversation db cid uid).1.conversations.filter
      (fun c => c.id == cid) = [] ∧
    get_conversation (delete_conversation db cid uid).1 cid uid =
      .error conversationNotFound ∧
    (delete_conversation db cid uid).1.messages.all
      (fun m => (delete_conversation db cid uid).1.conversations.any
        (fun c => c.id == m.conversation_id)) = true := by
  have hmem : conv ∈ db.conversations.filter (fun c => c.id == cid && c.user_id == uid) :=
    List.mem_filter.mpr ⟨hconv, by simp [hid, huid]⟩
  obtain ⟨c0, hf⟩ : ∃ c0, findConversation db cid uid = some c0 := by
    unfold findConversation
    cases hh : (db.conversations.filter
        (fun c => c.id == cid && c.user_id == uid)).head? with
    | none =>
      rw [List.head?_eq_none_iff] at hh
      rw [hh] at hmem
      exact absurd hmem (List.not_mem_nil conv)
    | some c0 => exact ⟨c0, rfl⟩
  have hdel : delete_conversation db cid uid =
      ({ db with
          conversations :=
            db.conversations.filter (fun c => !(c.id == cid && c.user_id == uid))
          messages := db.messages.filter (fun m => !(m.conversation_id == cid)) },
        .ok "Conversation deleted successfully") := by
    unfold delete_conversation
    rw [hf]
  rw [hdel]
  have hconvs_ne : ∀ c ∈ db.conversations.filter
      (fun c => !(c.id == cid && c.user_id == uid)), c.id ≠ cid := by
    intro c hc hcid
    obtain ⟨hc1, hc2⟩ := List.mem_filter.mp hc
    by_cases hceq : c = conv
    · subst hceq
      simp [hid, huid] at hc2
    · have hsym : Symmetric (fun a b : Conversation => a.id ≠ b.id) :=
        fun a b h e => h e.symm
      exact huniq.forall hsym hc1 hconv hceq (hcid.trans hid.symm)
  refine ⟨rfl, ?_, ?_, ?_, ?_⟩
  · rw [List.filter_eq_nil_iff]
    intro m hm
    obtain ⟨_, hm2⟩ := List.mem_filter.mp hm
    simp at hm2
    simp [hm2]
  · rw [List.filter_eq_nil_iff]
    intro c hc
    simpa using hconvs_ne c hc
  · have hnone : findConversation
        { db with
            conversations :=
              db.conversations.filter (fun c => !(c.id == cid && c.user_id == uid))
            messages := db.messages.filter (fun m => !(m.conversation_id == cid)) }
        cid uid = none := by
      unfold findConversation
      rw [List.filter_eq_nil_iff.mpr ?_]
      · rfl
      · intro c hc
        simp only [Bool.and_eq_true, beq_iff_eq, not_and]
        intro hcid _
        exact hconvs_ne c hc hcid
    unfold get_conversation
    rw [hnone]
  · rw [List.all_eq_true]
    intro m hm
    obtain ⟨hm1, hm2⟩ := List.mem_filter.mp hm
    simp only [Bool.not_eq_eq_eq_not, Bool.not_true, beq_eq_false_iff_ne] at hm2
    have hany := (List.all_eq_true.mp horph) m hm1
    rw [List.any_eq_true] at hany
    obtain ⟨c, hc1, hc2⟩ := hany
    rw [List.any_eq_true]
    refine ⟨c, List.mem_filter.mpr ⟨hc1, ?_⟩, hc2⟩
    rw [beq_iff_eq] at hc2
    simp [hc2, hm2]

/-- Witness for C6: deleting conversation 1 of `sampleDBAfterTwoTurns`,
which holds four messages of that conversation. -/
theorem delete_conversation_cascades_witness :
    (⟨1, 1, "trip", 0, 2⟩ : Conversation) ∈ sampleDBAfterTwoTurns.conversations ∧
    sampleDBAfterTwoTurns.conversations.Pairwise (fun a b => a.id ≠ b.id) ∧
    sampleDBAfterTwoTurns.messages.all
      (fun m => sampleDBAfterTwoTurns.conversations.any
        (fun c => c.id == m.conversation_id)) = true ∧
    ((delete_conversation sampleDBAfterTwoTurns 1 1).2 =
      .ok "Conversation deleted successfully" ∧
    (delete_conversation sampleDBAfterTwoTurns 1 1).1.messages.filter
      (fun m => m.conversation_id == 1) = [] ∧
    (delete_conversation sampleDBAfterTwoTurns 1 1).1.conversations.filter
      (fun c => c.id == 1) = [] ∧
    get_conversation (delete_conversation sampleDBAfterTwoTurns 1 1).1 1 1 =
      .error conversationNotFound ∧
    (delete_conversation sampleDBAfterTwoTurns 1 1).1.messages.all
      (fun m => (delete_conversation sampleDBAfterTwoTurns 1 1).1.conversations.any
        (fun c => c.id == m.conversation_id)) = true) :=
  ⟨by decide, by decide, by decide,
    delete_conversation_cascades sampleDBAfterTwoTurns 1 1 ⟨1, 1, "trip", 0, 2⟩
      (by decide) rfl rfl (by decide) (by decide)⟩

/-- Counterexample to claim C7: `create_conversation` never reads the
active flag — in a database whose only user is inactive, creating a
conversation for that user succeeds and persists a row, where the claim
demands a NotFound failure and no conversation. -/
theorem create_conversation_inactive_user_succeeds :
    (∀ u ∈ inactiveUserDB.users, u.is_active = false) ∧
    create_conversation inactiveUserDB "t" 1 0 =
      ({ inactiveUserDB with
          conversations := inactiveUserDB.conversations ++ [⟨1, 1, "t", 0, 0⟩]
          nextConvId := 2 },
        .ok ⟨1, 1, "t", 0, 0⟩) :=
  ⟨by decide, rfl⟩

/-- Claim C7 (amended): `create_conversation` fails with the 404 "User
not found" error exactly when no user row with the given id exists — the
active flag is not consulted, so an inactive existing user can create —
and on success it appends and returns a record owned by the user with
both timestamps set to the current time. -/
theorem create_conversation_checks_existence_only
    (db db2 : DB) (title : String) (uid now : Nat)
    (habsent : ∀ u ∈ db.users, u.id ≠ uid)
    (hpresent : ∃ u ∈ db2.users, u.id = uid) :
    create_conversation db title uid now = (db, .error ⟨404, "User not found"⟩) ∧
    create_conversation db2 title uid now =
      ({ db2 with
          conversations := db2.conversations ++ [⟨db2.nextConvId, uid, title, now, now⟩]
          nextConvId := db2.nextConvId + 1 },
        .ok ⟨db2.nextConvId, uid, title, now, now⟩) := by
  constructor
  · have hnil : db.users.filter (fun u => u.id == uid) = [] :=
      List.filter_eq_nil_iff.mpr (by intro u hu; simpa using habsent u hu)
    unfold create_conversation
    rw [hnil]
    rfl
  · obtain ⟨u, hu, huid⟩ := hpresent
    have hmem : u ∈ db2.users.filter (fun x => x.id == uid) :=
      List.mem_filter.mpr ⟨hu, by simp [huid]⟩
    cases hh : (db2.users.filter (fun x => x.id == uid)).head? with
    | none =>
      rw [List.head?_eq_none_iff] at hh
      rw [hh] at hmem
      exact absurd hmem (List.not_mem_nil u)
    | some v =>
      unfold create_conversation
      rw [hh]

/-- Witness for the amended C7: user 1 is unknown to the empty-user
database; user 1 exists (inactive) in `inactiveUserDB`. -/
theorem create_conversation_checks_existence_only_witness :
    (∀ u ∈ (⟨[], [], [], 1, 1⟩ : DB).users, u.id ≠ 1) ∧
    (∃ u ∈ inactiveUserDB.users, u.id = 1) ∧
    (create_conversation ⟨[], [], [], 1, 1⟩ "t" 1 9 =
      (⟨[], [], [], 1, 1⟩, .error ⟨404, "User not found"⟩) ∧
    create_conversation inactiveUserDB "t" 1 9 =
      ({ inactiveUserDB with
          conversations := inactiveUserDB.conversations ++
            [⟨inactiveUserDB.nextConvId, 1, "t", 9, 9⟩]
          nextConvId := inactiveUserDB.nextConvId + 1 },
        .ok ⟨inactiveUserDB.nextConvId, 1, "t", 9, 9⟩)) :=
  ⟨by decide, ⟨⟨1, "bob", "bob@x.com", "pw", false⟩, by decide, rfl⟩,
    create_conversation_checks_existence_only ⟨[], [], [], 1, 1⟩ inactiveUserDB "t" 1 9
      (by decide) ⟨⟨1, "bob", "bob@x.com", "pw", false⟩, by decide, rfl⟩⟩

/-- Counterexample to claim C8: an empty message string passes the
`ChatRequest` validation (its `message` field is a bare `str`), and
`send_message` with an empty text persists an empty user message and
completes — no `ValidationError` occurs. -/
theorem send_message_empty_text_is_accepted :
    validate_chat_request (some 1) (some "") = .ok ⟨1, ""⟩ ∧
    (send_message sampleDB 1 ⟨1, ""⟩ 1 okBackend 1).2 = .ok ("hello", 2) ∧
    (⟨1, 1, "user", "", 1⟩ : Message) ∈
      (send_message sampleDB 1 ⟨1, ""⟩ 1 okBackend 1).1.messages :=
  ⟨rfl, rfl, by decide⟩

/-- Claim C8 (amended): request validation rejects only a missing or
ill-typed field with a 422; the empty string is a valid message, and a
`send_message` call on an owned conversation with empty text persists the
empty-content user message exactly as any other text. -/
theorem empty_message_passes_validation
    (db : DB) (cid uid : Nat) (backend : Backend) (now : Nat) (conv : Conversation)
    (hown : findConversation db cid uid = some conv) :
    validate_chat_request (some cid) (some "") = .ok ⟨cid, ""⟩ ∧
    validate_chat_request none (some "hi") = .error ⟨422, "Unprocessable Entity"⟩ ∧
    validate_chat_request (some cid) none = .error ⟨422, "Unprocessable Entity"⟩ ∧
    (⟨db.nextMsgId, cid, "user", "", now⟩ : Message) ∈
      (send_message db cid ⟨cid, ""⟩ uid backend now).1.messages := by
  refine ⟨rfl, rfl, rfl, ?_⟩
  unfold send_message
  rw [hown]
  split
  case h_1 x heq => simp at heq
  case h_2 x c heq =>
    split
    · simp
    · simp

/-- Witness for the amended C8 on `sampleDB` with the failing backend. -/
theorem empty_message_passes_validation_witness :
    findConversation sampleDB 1 1 = some ⟨1, 1, "trip", 0, 0⟩ ∧
    (validate_chat_request (some 1) (some "") = .ok ⟨1, ""⟩ ∧
    validate_chat_request none (some "hi") = .error ⟨422, "Unprocessable Entity"⟩ ∧
    validate_chat_request (some 1) none = .error ⟨422, "Unprocessable Entity"⟩ ∧
    (⟨sampleDB.nextMsgId, 1, "user", "", 3⟩ : Message) ∈
      (send_message sampleDB 1 ⟨1, ""⟩ 1 failBackend 3).1.messages) :=
  ⟨rfl, empty_message_passes_validation sampleDB 1 1 failBackend 3 ⟨1, 1, "trip", 0, 0⟩ rfl⟩

/-- Counterexample to claim C9: an inactive account that authenticates
fails with the 403 "User account is inactive" error, which differs from
the 401 "Invalid email or password" error — so `AuthError::Invalid` is
not login's only failure kind. -/
theorem login_inactive_account_fails_with_403 :
    login inactiveUserDB "bob@x.com" "pw" (fun p h => p == h) (fun _ => "tok") =
      .error ⟨403, "User account is inactive"⟩ ∧
    (⟨403, "User account is inactive"⟩ : HTTPError) ≠ ⟨401, "Invalid email or password"⟩ :=
  ⟨rfl, by decide⟩

/-- Claim C9 (amended): every login failure is either the 401 "Invalid
email or password" error (unknown email or failed password check) or the
403 "User account is inactive" error (an authenticating but inactive
account) — these two are login's only failure kinds. -/
theorem login_failure_kinds
    (db : DB) (email password : String) (vp : String → String → Bool)
    (tokf : Nat → String) (e : HTTPError)
    (herr : login db email password vp tokf = .error e) :
    e = ⟨401, "Invalid email or password"⟩ ∨ e = ⟨403, "User account is inactive"⟩ := by
  unfold login at herr
  split at herr
  · injection herr with h
    exact Or.inl h.symm
  · split at herr
    · injection herr with h
      exact Or.inl h.symm
    · split at herr
      · injection herr with h
        exact Or.inr h.symm
      · cases herr

/-- Witness for the amended C9: logging in with an unknown email. -/
theorem login_failure_kinds_witness :
    login sampleDB "nosuch@x.com" "pw" (fun _ _ => true) (fun _ => "tok") =
      .error ⟨401, "Invalid email or password"⟩ ∧
    ((⟨401, "Invalid email or password"⟩ : HTTPError) =
        ⟨401, "Invalid email or password"⟩ ∨
      (⟨401, "Invalid email or password"⟩ : HTTPError) =
        ⟨403, "User account is inactive"⟩) :=
  ⟨rfl, login_failure_kinds sampleDB "nosuch@x.com" "pw" (fun _ _ => true)
    (fun _ => "tok") ⟨401, "Invalid email or password"⟩ rfl⟩

/-- Claim C10: the `conversation_id` carried in the request body is
ignored — `send_message` behaves identically for any two bodies sharing
the same message text, and every message row it creates carries the
conversation id taken from the URL path. -/
theorem send_message_ignores_body_conversation_id
    (db : DB) (cid a b uid : Nat) (m : String) (backend : Backend) (now : Nat)
    (msg : Message)
    (hmem : msg ∈ (send_message db cid ⟨a, m⟩ uid backend now).1.messages) :
    send_message db cid ⟨a, m⟩ uid backend now =
      send_message db cid ⟨b, m⟩ uid backend now ∧
    (msg ∈ db.messages ∨ msg.conversation_id = cid) := by
  refine ⟨rfl, ?_⟩
  unfold send_message at hmem
  split at hmem
  · exact Or.inl hmem
  · split at hmem
    · simp only [List.mem_append, List.mem_singleton] at hmem
      rcases hmem with h | h
      · exact Or.inl h
      · subst h
        exact Or.inr rfl
    · simp only [List.mem_append, List.mem_cons, List.mem_singleton,
        List.not_mem_nil, or_false] at hmem
      rcases hmem with h | h | h
      · exact Or.inl h
      · subst h
        exact Or.inr rfl
      · subst h
        exact Or.inr rfl

/-- Witness for C10: the body names conversation 99, the path names 1;
the persisted user message carries 1. -/
theorem send_message_ignores_body_conversation_id_witness :
    (⟨1, 1, "user", "hi", 1⟩ : Message) ∈
      (send_message sampleDB 1 ⟨99, "hi"⟩ 1 okBackend 1).1.messages ∧
    (send_message sampleDB 1 ⟨99, "hi"⟩ 1 okBackend 1 =
      send_message sampleDB 1 ⟨7, "hi"⟩ 1 okBackend 1 ∧
    ((⟨1, 1, "user", "hi", 1⟩ : Message) ∈ sampleDB.messages ∨
      (⟨1, 1, "user", "hi", 1⟩ : Message).conversation_id = 1)) :=
  ⟨by decide, send_message_ignores_body_conversation_id sampleDB 1 99 7 1 "hi"
    okBackend 1 ⟨1, 1, "user", "hi", 1⟩ (by decide)⟩

end Cha
